import Mathlib

/-!
# Mortgage calculation engine — verification of the spec's claims

Shallow embedding of the numeric calculation routines of the repository:

* `Part001.*`   — the browser-side engine library (src/unnamed/part_001, a
  TypeScript module exporting `calculateMonthlyPayment`,
  `generateAmortizationSchedule`, `calculateTotalInterest`,
  `calculateRentVsBuy`, `calculateRefinanceBreakEven`);
* `MortgageService.*` — the frontend service copy (src/unnamed/part_003,
  `mortgageService.calculateMonthlyPayment` and
  `mortgageService.generateAmortizationSchedule`, which round to cents and
  stamp wall-clock payment dates);
* `Query.*`     — the server-side GraphQL resolvers
  (src/Rocket-LendPro/backend-net8/.../GraphQL/Queries/Query.cs:
  `CheckPreApproval`, `AnalyzeRefinance`, `CalculateAffordability`).

Modelling conventions:

* JavaScript `number` and C# `decimal`/`double` are idealised as exact
  rationals `ℚ`.  Where a claim's truth would hinge on IEEE-754 rounding
  it is settled on the exact model, matching the spec's own exact-arithmetic
  phrasing ("exactly 0", "exactly p/(y*12)").
* Lean's total division returns `0` where JS/C# produce `Infinity`/`NaN`
  (zero denominators).  Every theorem below either carries hypotheses that
  keep denominators non-zero, or — where a claim is refuted on a zero
  denominator — the refutation is insensitive to which junk value the
  division produces (both `0` and `NaN` differ from the claimed value).
* Loan terms are whole years (`ℤ`), as in all source call sites; month
  counts are `termYears * 12` exactly as in the source.
* JS `Math.round` (half toward +∞) is `jsRound`; C# `Math.Round(·, 2)`
  (banker's rounding, half to even) is `Query.roundHalfEven` / `Query.round2`.
* The wall clock read by `mortgageService.generateAmortizationSchedule`
  (`new Date()` in the source) is threaded as an explicit `startMonth`
  parameter: the month index the clock shows at call time.
-/

/-! ## Part001: the engine library (src/unnamed/part_001) -/

/-- Entry of the amortization schedule, from the `AmortizationScheduleItem`
interface of part_001 (fields `payment`, `principal`, `interest`, `balance`,
`cumulativeInterest`, `cumulativePrincipal`). -/
structure Part001.AmortizationScheduleItem where
  payment : ℕ
  principal : ℚ
  interest : ℚ
  balance : ℚ
  cumulativeInterest : ℚ
  cumulativePrincipal : ℚ
deriving DecidableEq

/-- `calculateMonthlyPayment` from part_001 lines 10–27.  The source performs
no input validation: it converts the rate, special-cases a zero monthly rate
(straight-line `principal / numberOfPayments`) and otherwise evaluates the
annuity formula.  `loanTermYears` may be any integer, as in the source where
it is an unchecked `number`; the exponent is the integer `loanTermYears * 12`. -/
def Part001.calculateMonthlyPayment (principal annualInterestRate : ℚ)
    (loanTermYears : ℤ) : ℚ :=
  let monthlyInterestRate := annualInterestRate / 100 / 12
  let numberOfPayments : ℤ := loanTermYears * 12
  if monthlyInterestRate = 0 then
    principal / (numberOfPayments : ℚ)
  else
    principal * monthlyInterestRate * (1 + monthlyInterestRate) ^ numberOfPayments /
      ((1 + monthlyInterestRate) ^ numberOfPayments - 1)

/-- One pass of the loop body of `generateAmortizationSchedule`
(part_001 lines 43–64), acting on the running balance only:
`interestPayment = balance * r`, `principalPayment = monthlyPayment − interest`,
subtract, then clamp a negative balance to `0`. -/
def Part001.step (r P b : ℚ) : ℚ :=
  let b' := b - (P - b * r)
  if b' < 0 then 0 else b'

/-- The running balance before payment number `k+1`: `iterBal r P b k` is the
balance after `k` iterations of the loop body, starting from `b`. -/
def Part001.iterBal (r P b : ℚ) : ℕ → ℚ
  | 0 => b
  | k + 1 => Part001.step r P (Part001.iterBal r P b k)

/-- The loop of `generateAmortizationSchedule` (part_001 lines 43–64):
`k` iterations left, `idx` the 1-based payment number, `b` the running
balance, `cI`/`cP` the cumulative interest/principal. -/
def Part001.amortLoop (r P : ℚ) : ℕ → ℕ → ℚ → ℚ → ℚ →
    List Part001.AmortizationScheduleItem
  | 0, _, _, _, _ => []
  | k + 1, idx, b, cI, cP =>
    let interestPayment := b * r
    let principalPayment := P - interestPayment
    let newBalance := b - principalPayment
    let clamped := if newBalance < 0 then 0 else newBalance
    let cI' := cI + interestPayment
    let cP' := cP + principalPayment
    { payment := idx, principal := principalPayment, interest := interestPayment,
      balance := clamped, cumulativeInterest := cI', cumulativePrincipal := cP' } ::
      Part001.amortLoop r P k (idx + 1) clamped cI' cP'

/-- `generateAmortizationSchedule` from part_001 lines 29–67: computes the
monthly payment once, then iterates payments `1 .. loanTermYears*12`
(no iterations when the term is non-positive, as in the source's `for` loop). -/
def Part001.generateAmortizationSchedule (principal annualInterestRate : ℚ)
    (loanTermYears : ℤ) : List Part001.AmortizationScheduleItem :=
  let monthlyInterestRate := annualInterestRate / 100 / 12
  let numberOfPayments := (loanTermYears * 12).toNat
  let monthlyPayment :=
    Part001.calculateMonthlyPayment principal annualInterestRate loanTermYears
  Part001.amortLoop monthlyInterestRate monthlyPayment numberOfPayments 1 principal 0 0

/-- `calculateTotalInterest` from part_001 lines 69–77. -/
def Part001.calculateTotalInterest (principal annualInterestRate : ℚ)
    (loanTermYears : ℤ) : ℚ :=
  let monthlyPayment :=
    Part001.calculateMonthlyPayment principal annualInterestRate loanTermYears
  monthlyPayment * loanTermYears * 12 - principal

/-- Result record of `calculateRefinanceBreakEven` (part_001 lines 130–149). -/
structure Part001.RefinanceBreakEvenResult where
  monthlySavings : ℚ
  breakEvenMonths : ℚ
  totalSavings : ℚ
deriving DecidableEq

/-- `calculateRefinanceBreakEven` from part_001 lines 130–149: both payments
use the same balance and the same term; `breakEvenMonths` is the raw quotient
`closingCosts / monthlySavings` when savings are positive (the source applies
no ceiling), else `0`. -/
def Part001.calculateRefinanceBreakEven (currentBalance currentRate newRate : ℚ)
    (loanTermYears : ℤ) (closingCosts : ℚ) : Part001.RefinanceBreakEvenResult :=
  let currentPayment :=
    Part001.calculateMonthlyPayment currentBalance currentRate loanTermYears
  let newPayment :=
    Part001.calculateMonthlyPayment currentBalance newRate loanTermYears
  let monthlySavings := currentPayment - newPayment
  let breakEvenMonths := if 0 < monthlySavings then closingCosts / monthlySavings else 0
  let totalSavings := monthlySavings * loanTermYears * 12 - closingCosts
  { monthlySavings := monthlySavings, breakEvenMonths := breakEvenMonths,
    totalSavings := totalSavings }

/-- Result record of `calculateRentVsBuy` (part_001 lines 123–127). -/
structure Part001.RentVsBuyResult where
  buyingCost : ℚ
  rentingCost : ℚ
  breakEvenYear : ℕ
deriving DecidableEq

/-- Loop body of `calculateRentVsBuy` (part_001 lines 100–121) for a given
`year`, acting on the state (totalBuyingCost, totalRentingCost, currentRent,
breakEvenYear).  Note the source computes `annualInsurance = homeInsurance * 12`:
the insurance input is annualised by multiplying by 12. -/
def Part001.rentVsBuyStep (homePrice monthlyPayment propertyTaxRate homeInsurance
    maintenanceRate rentIncreaseRate homeAppreciationRate : ℚ) (year : ℕ)
    (st : ℚ × ℚ × ℚ × ℕ) : ℚ × ℚ × ℚ × ℕ :=
  let totalBuyingCost := st.1
  let totalRentingCost := st.2.1
  let currentRent := st.2.2.1
  let breakEvenYear := st.2.2.2
  let annualMortgagePayments := monthlyPayment * 12
  let annualPropertyTax := homePrice * (propertyTaxRate / 100)
  let annualInsurance := homeInsurance * 12
  let annualMaintenance := homePrice * (maintenanceRate / 100)
  let buy1 := totalBuyingCost + annualMortgagePayments + annualPropertyTax +
    annualInsurance + annualMaintenance
  let homeAppreciation := homePrice * (1 + homeAppreciationRate / 100) ^ year - homePrice
  let buy2 := buy1 - homeAppreciation
  let rent' := totalRentingCost + currentRent * 12
  let currentRent' := currentRent * (1 + rentIncreaseRate / 100)
  let breakEvenYear' := if breakEvenYear = 0 ∧ buy2 < rent' then year else breakEvenYear
  (buy2, rent', currentRent', breakEvenYear')

/-- State of `calculateRentVsBuy` after simulating years `1 .. k`; the initial
state is (downPayment, 0, monthlyRent, 0) — the down payment is a sunk buying
cost at year 0 (part_001 lines 95–98). -/
def Part001.rentVsBuyState (homePrice downPayment interestRate : ℚ)
    (loanTermYears : ℤ) (monthlyRent propertyTaxRate homeInsurance maintenanceRate
    rentIncreaseRate homeAppreciationRate : ℚ) : ℕ → ℚ × ℚ × ℚ × ℕ
  | 0 => (downPayment, 0, monthlyRent, 0)
  | k + 1 =>
    Part001.rentVsBuyStep homePrice
      (Part001.calculateMonthlyPayment (homePrice - downPayment) interestRate loanTermYears)
      propertyTaxRate homeInsurance maintenanceRate rentIncreaseRate
      homeAppreciationRate (k + 1)
      (Part001.rentVsBuyState homePrice downPayment interestRate loanTermYears
        monthlyRent propertyTaxRate homeInsurance maintenanceRate rentIncreaseRate
        homeAppreciationRate k)

/-- `calculateRentVsBuy` from part_001 lines 79–128: computes the payment on
`homePrice − downPayment` once, then simulates years `1 .. yearsToAnalyze`. -/
def Part001.calculateRentVsBuy (homePrice downPayment interestRate : ℚ)
    (loanTermYears : ℤ) (monthlyRent propertyTaxRate homeInsurance maintenanceRate
    rentIncreaseRate homeAppreciationRate : ℚ) (yearsToAnalyze : ℕ) :
    Part001.RentVsBuyResult :=
  let final := Part001.rentVsBuyState homePrice downPayment interestRate loanTermYears
    monthlyRent propertyTaxRate homeInsurance maintenanceRate rentIncreaseRate
    homeAppreciationRate yearsToAnalyze
  { buyingCost := final.1, rentingCost := final.2.1, breakEvenYear := final.2.2.2 }

/-! ## MortgageService: the frontend service copy (src/unnamed/part_003) -/

/-- JavaScript `Math.round`: round half toward positive infinity. -/
def MortgageService.jsRound (q : ℚ) : ℤ := ⌊q + 1/2⌋

/-- `Math.round(x * 100) / 100` — the cent rounding used throughout
`mortgageService` (part_003). -/
def MortgageService.round2 (q : ℚ) : ℚ := (MortgageService.jsRound (q * 100) : ℚ) / 100

/-- Entry of the `AmortizationPayment` interface of part_003 (lines 29–36).
The source's `paymentDate` is an ISO date string derived from the wall clock;
it is modelled as the month index `startMonth + paymentNumber`, where
`startMonth` is the month the clock shows when the function is called. -/
structure MortgageService.AmortizationPayment where
  paymentNumber : ℕ
  paymentDate : ℕ
  principal : ℚ
  interest : ℚ
  totalPayment : ℚ
  remainingBalance : ℚ
deriving DecidableEq

/-- `mortgageService.calculateMonthlyPayment` from part_003 lines 146–159:
identical to the part_001 formula except that the non-zero-rate result is
rounded to cents (`Math.round(monthlyPayment * 100) / 100`); the zero-rate
branch returns `principal / numberOfPayments` unrounded. -/
def MortgageService.calculateMonthlyPayment (principal annualRate : ℚ)
    (years : ℤ) : ℚ :=
  let monthlyRate := annualRate / 100 / 12
  let numberOfPayments : ℤ := years * 12
  if monthlyRate = 0 then
    principal / (numberOfPayments : ℚ)
  else
    MortgageService.round2
      (principal * (monthlyRate * (1 + monthlyRate) ^ numberOfPayments) /
        ((1 + monthlyRate) ^ numberOfPayments - 1))

/-- Loop of `mortgageService.generateAmortizationSchedule` (part_003 lines
175–191): the running balance `b` is kept unrounded; the emitted entry rounds
principal and interest to cents and stores
`Math.max(0, Math.round(remainingBalance * 100) / 100)` as the balance. -/
def MortgageService.amortLoop (r P : ℚ) (startMonth : ℕ) :
    ℕ → ℕ → ℚ → List MortgageService.AmortizationPayment
  | 0, _, _ => []
  | k + 1, i, b =>
    let interestPayment := b * r
    let principalPayment := P - interestPayment
    let b' := b - principalPayment
    { paymentNumber := i, paymentDate := startMonth + i,
      principal := MortgageService.round2 principalPayment,
      interest := MortgageService.round2 interestPayment,
      totalPayment := P,
      remainingBalance := max 0 (MortgageService.round2 b') } ::
      MortgageService.amortLoop r P startMonth k (i + 1) b'

/-- `mortgageService.generateAmortizationSchedule` from part_003 lines
162–194.  `startMonth` models the `new Date()` the source reads at call time
(the only wall-clock dependence; it feeds every entry's `paymentDate`). -/
def MortgageService.generateAmortizationSchedule (startMonth : ℕ)
    (principal annualRate : ℚ) (years : ℤ) :
    List MortgageService.AmortizationPayment :=
  let monthlyRate := annualRate / 100 / 12
  let numberOfPayments := (years * 12).toNat
  let monthlyPayment := MortgageService.calculateMonthlyPayment principal annualRate years
  MortgageService.amortLoop monthlyRate monthlyPayment startMonth numberOfPayments 1 principal

/-- Numeric content of a part_003 schedule entry: every field except the
wall-clock-derived `paymentDate`. -/
def MortgageService.stripDate (e : MortgageService.AmortizationPayment) :
    ℕ × ℚ × ℚ × ℚ × ℚ :=
  (e.paymentNumber, e.principal, e.interest, e.totalPayment, e.remainingBalance)

/-! ## Query: the server-side GraphQL resolvers (Query.cs) -/

/-- C# `Math.Round(·, MidpointRounding.ToEven)` on `decimal` — banker's
rounding, the default used by `Math.Round(x, 2)` in Query.cs. -/
def Query.roundHalfEven (q : ℚ) : ℤ :=
  if q - ⌊q⌋ < 1/2 then ⌊q⌋
  else if 1/2 < q - ⌊q⌋ then ⌊q⌋ + 1
  else if ⌊q⌋ % 2 = 0 then ⌊q⌋ else ⌊q⌋ + 1

/-- C# `Math.Round(x, 2)`: banker's rounding to two decimal places. -/
def Query.round2 (q : ℚ) : ℚ := (Query.roundHalfEven (q * 100) : ℚ) / 100

/-- `PreApprovalInput` record from Query.cs lines 59–65 (`CreditScore` is an
`int`, the money fields are `decimal`). -/
structure Query.PreApprovalInput where
  annualIncome : ℚ
  monthlyDebts : ℚ
  downPayment : ℚ
  creditScore : ℤ
  employmentStatus : String

/-- `PreApprovalResultDto` from Query.cs lines 33–38, without the free-text
`Message` field (text formatting of numbers is not modelled; no claim
concerns the message). -/
structure Query.PreApprovalResultDto where
  isEligible : Bool
  maxLoanAmount : ℚ
  estimatedRate : ℚ

/-- `Query.CheckPreApproval` from Query.cs lines 266–300: eligibility is the
conjunction `DTI ≤ 0.43 ∧ creditScore ≥ 620 ∧ downPayment ≥ 10000 ∧
employmentStatus ≠ "Unemployed"`; the estimated rate is the credit-score step
function; the max loan amount back-solves the annuity at a fixed 30-year term
and is clamped to `≥ 0` and rounded at output. -/
def Query.CheckPreApproval (input : Query.PreApprovalInput) :
    Query.PreApprovalResultDto :=
  let monthlyIncome := input.annualIncome / 12
  let totalMonthlyDebts := input.monthlyDebts
  let debtToIncomeRatioVal := totalMonthlyDebts / monthlyIncome
  let isEligible : Bool :=
    decide (debtToIncomeRatioVal ≤ 43/100) && decide (620 ≤ input.creditScore) &&
      decide (10000 ≤ input.downPayment) && decide (input.employmentStatus ≠ "Unemployed")
  let maxMonthlyPayment := monthlyIncome * (28/100) - totalMonthlyDebts
  let estimatedRate : ℚ :=
    if 740 ≤ input.creditScore then 65/10 else if 680 ≤ input.creditScore then 7 else 75/10
  let monthlyRate := estimatedRate / 100 / 12
  let totalPayments : ℕ := 30 * 12
  let maxLoanAmount :=
    if isEligible ∧ 0 < maxMonthlyPayment then
      maxMonthlyPayment * ((1 + monthlyRate) ^ totalPayments - 1) /
        (monthlyRate * (1 + monthlyRate) ^ totalPayments)
    else 0
  { isEligible := isEligible,
    maxLoanAmount := Query.round2 (max 0 maxLoanAmount),
    estimatedRate := estimatedRate }

/-- `RefinanceInput` record from Query.cs lines 67–74 (`RemainingYears` and
`NewLoanTermYears` are `int`s). -/
structure Query.RefinanceInput where
  currentLoanAmount : ℚ
  currentInterestRate : ℚ
  remainingYears : ℤ
  newInterestRate : ℚ
  newLoanTermYears : ℤ
  closingCosts : ℚ

/-- `RefinanceAnalysisDto` from Query.cs lines 40–48, without the free-text
`Recommendation` field (no claim concerns its wording). -/
structure Query.RefinanceAnalysisDto where
  currentPayment : ℚ
  newPayment : ℚ
  monthlySavings : ℚ
  breakEvenMonths : ℤ
  totalSavings : ℚ
  isRecommended : Bool

/-- The annuity-formula expression Query.cs spells out twice inside
`AnalyzeRefinance` (lines 325–337):
`amount * (r * (1+r)^(years*12)) / ((1+r)^(years*12) - 1)` with
`r = rate / 100 / 12`.  There is no zero-rate special case: at rate `0` the
C# expression is `0.0 / 0.0` (`NaN`); under Lean's total division it is `0`. -/
def Query.annuityPayment (amount rate : ℚ) (years : ℤ) : ℚ :=
  let monthlyRate := rate / 100 / 12
  let payments : ℤ := years * 12
  amount * (monthlyRate * (1 + monthlyRate) ^ payments) /
    ((1 + monthlyRate) ^ payments - 1)

/-- `Query.AnalyzeRefinance` from Query.cs lines 321–361: both payments are
computed on the current outstanding balance; `breakEvenMonths` is
`ceil(closingCosts / monthlySavings)` when savings are positive, else `0`;
`totalSavings` counts savings over the shorter horizon; the DTO's monetary
fields are rounded to cents at output while the break-even and the
recommendation use the unrounded values. -/
def Query.AnalyzeRefinance (input : Query.RefinanceInput) :
    Query.RefinanceAnalysisDto :=
  let currentPayment :=
    Query.annuityPayment input.currentLoanAmount input.currentInterestRate
      input.remainingYears
  let newPayment :=
    Query.annuityPayment input.currentLoanAmount input.newInterestRate
      input.newLoanTermYears
  let monthlySavings := currentPayment - newPayment
  let breakEvenMonths : ℤ :=
    if 0 < monthlySavings then ⌈input.closingCosts / monthlySavings⌉ else 0
  let totalSavings :=
    monthlySavings * min ((input.remainingYears * 12 : ℤ) : ℚ)
      ((input.newLoanTermYears * 12 : ℤ) : ℚ) - input.closingCosts
  let isRecommended : Bool := decide (0 < totalSavings) && decide (breakEvenMonths ≤ 60)
  { currentPayment := Query.round2 currentPayment,
    newPayment := Query.round2 newPayment,
    monthlySavings := Query.round2 monthlySavings,
    breakEvenMonths := breakEvenMonths,
    totalSavings := Query.round2 totalSavings,
    isRecommended := isRecommended }

/-- `AffordabilityInput` record from Query.cs lines 76–82. -/
structure Query.AffordabilityInput where
  annualIncome : ℚ
  monthlyDebts : ℚ
  downPayment : ℚ
  interestRate : ℚ
  loanTermYears : ℤ

/-- `AffordabilityResultDto` from Query.cs lines 50–56.  The DTO's third
positional field (named `RecommendedPayment`) receives
`Math.Round(Math.Max(0, availableForMortgage), 2)`; the fourth (named
`DebtToIncomeRatio`) receives the ratio scaled to percent. -/
structure Query.AffordabilityResultDto where
  maxLoanAmount : ℚ
  maxHomePrice : ℚ
  recommendedPayment : ℚ
  debtToIncomeRatioPercent : ℚ
  isAffordable : Bool

/-- `Query.CalculateAffordability` from Query.cs lines 364–390.  Note the
source computes `availableForMortgage = min(maxHousingPayment,
maxTotalPayment − monthlyDebts)` and uses this *unclamped* value both to gate
`maxLoanAmount` and inside `debtToIncomeRatio`; the `Math.Max(0, ·)` clamps
are applied only to the returned DTO fields. -/
def Query.CalculateAffordability (input : Query.AffordabilityInput) :
    Query.AffordabilityResultDto :=
  let monthlyIncome := input.annualIncome / 12
  let maxHousingPayment := monthlyIncome * (28/100)
  let maxTotalPayment := monthlyIncome * (36/100)
  let availableForMortgage := min maxHousingPayment (maxTotalPayment - input.monthlyDebts)
  let monthlyRate := input.interestRate / 100 / 12
  let totalPayments : ℤ := input.loanTermYears * 12
  let maxLoanAmount :=
    if 0 < availableForMortgage then
      availableForMortgage * ((1 + monthlyRate) ^ totalPayments - 1) /
        (monthlyRate * (1 + monthlyRate) ^ totalPayments)
    else 0
  let maxHomePrice := maxLoanAmount + input.downPayment
  let debtToIncomeRatioVal := (input.monthlyDebts + availableForMortgage) / monthlyIncome
  let isAffordable : Bool :=
    decide (debtToIncomeRatioVal ≤ 43/100) && decide (0 < availableForMortgage)
  { maxLoanAmount := Query.round2 (max 0 maxLoanAmount),
    maxHomePrice := Query.round2 (max 0 maxHomePrice),
    recommendedPayment := Query.round2 (max 0 availableForMortgage),
    debtToIncomeRatioPercent := Query.round2 (debtToIncomeRatioVal * 100),
    isAffordable := isAffordable }

/-! ## Spec-side reference definition for the validation claim (C1) -/

/-- Error taxonomy of spec §7. -/
inductive EngineError where
  | invalidArgument
deriving DecidableEq

/-- Modelled from the spec (§4.1, §7), not from the source: the validating
payment operation the spec describes, which "fails with `InvalidArgument` when
`termYears ≤ 0` ... or `principal < 0` or `annualRatePercent < 0`" before any
computation.  No implementation in the repository performs this validation;
this definition exists only to state claim C1's required behaviour next to
the code's actual behaviour. -/
def monthlyPaymentSpec (principal annualRatePercent : ℚ) (termYears : ℤ) :
    Except EngineError ℚ :=
  if termYears ≤ 0 ∨ principal < 0 ∨ annualRatePercent < 0 then
    .error .invalidArgument
  else
    .ok (Part001.calculateMonthlyPayment principal annualRatePercent termYears)

/-- The pre-payment remaining balance entering the schedule entry of 0-based
index `i` (payment number `i+1`): the loan principal for `i = 0`, and the
balance emitted with entry `i − 1` afterwards (this identification is proved
in claim C10's theorem). -/
def Part001.prevBalance (principal annualInterestRate : ℚ) (loanTermYears : ℤ)
    (i : ℕ) : ℚ :=
  Part001.iterBal (annualInterestRate / 100 / 12)
    (Part001.calculateMonthlyPayment principal annualInterestRate loanTermYears)
    principal i

/-! ## Helper lemmas about the part_001 schedule loop -/

theorem Part001.iterBal_step (r P b : ℚ) (k : ℕ) :
    Part001.iterBal r P (Part001.step r P b) k = Part001.iterBal r P b (k + 1) := by
  induction k with
  | zero => rfl
  | succ k ih => simp only [Part001.iterBal, ih]

theorem Part001.amortLoop_map_triple (r P : ℚ) :
    ∀ (k idx : ℕ) (b cI cP : ℚ),
      (Part001.amortLoop r P k idx b cI cP).map
          (fun e => (e.principal, e.interest, e.balance))
        = (List.range k).map
            (fun j => (P - Part001.iterBal r P b j * r,
              Part001.iterBal r P b j * r, Part001.iterBal r P b (j + 1))) := by
  intro k
  induction k with
  | zero => intro idx b cI cP; rfl
  | succ k ih =>
    intro idx b cI cP
    have tail_eq :
        (List.range k).map (fun j => (P - Part001.iterBal r P (Part001.step r P b) j * r,
            Part001.iterBal r P (Part001.step r P b) j * r,
            Part001.iterBal r P (Part001.step r P b) (j + 1)))
          = (List.range k).map
              ((fun j => (P - Part001.iterBal r P b j * r, Part001.iterBal r P b j * r,
                Part001.iterBal r P b (j + 1))) ∘ Nat.succ) := by
      apply List.map_congr_left
      intro j _
      simp only [Function.comp, Nat.succ_eq_add_one, Part001.iterBal_step]
    rw [List.range_succ_eq_map, List.map_cons, List.map_map]
    show (P - b * r, b * r, Part001.step r P b) ::
        (Part001.amortLoop r P k (idx + 1) (Part001.step r P b)
          (cI + b * r) (cP + (P - b * r))).map
          (fun e => (e.principal, e.interest, e.balance)) = _
    rw [ih, tail_eq]
    rfl

theorem Part001.amortLoop_length (r P : ℚ) (k idx : ℕ) (b cI cP : ℚ) :
    (Part001.amortLoop r P k idx b cI cP).length = k := by
  have h := congrArg List.length (Part001.amortLoop_map_triple r P k idx b cI cP)
  simpa using h

theorem Part001.schedule_map_balance (p r : ℚ) (y : ℤ) :
    (Part001.generateAmortizationSchedule p r y).map (·.balance)
      = (List.range ((y * 12).toNat)).map
          (fun j => Part001.prevBalance p r y (j + 1)) := by
  have h := congrArg (List.map (fun t : ℚ × ℚ × ℚ => t.2.2))
    (Part001.amortLoop_map_triple (r / 100 / 12)
      (Part001.calculateMonthlyPayment p r y) ((y * 12).toNat) 1 p 0 0)
  simp only [List.map_map] at h
  exact h

theorem Part001.schedule_length (p r : ℚ) (y : ℤ) :
    (Part001.generateAmortizationSchedule p r y).length = (y * 12).toNat :=
  Part001.amortLoop_length _ _ _ _ _ _ _

theorem Part001.payment_zero_rate (p : ℚ) (y : ℤ) :
    Part001.calculateMonthlyPayment p 0 y = p / ((y * 12 : ℤ) : ℚ) := by
  simp [Part001.calculateMonthlyPayment]

theorem Part001.payment_pos_rate (p r : ℚ) (y : ℤ) (hr : r ≠ 0) (hy : 0 < y) :
    Part001.calculateMonthlyPayment p r y =
      p * (r / 100 / 12) * (1 + r / 100 / 12) ^ ((y * 12).toNat) /
        ((1 + r / 100 / 12) ^ ((y * 12).toNat) - 1) := by
  have hr' : r / 100 / 12 ≠ 0 := div_ne_zero (div_ne_zero hr (by norm_num)) (by norm_num)
  have hn : ((y * 12).toNat : ℤ) = y * 12 := Int.toNat_of_nonneg (by omega)
  simp only [Part001.calculateMonthlyPayment, if_neg hr']
  rw [← zpow_natCast ((1 : ℚ) + r / 100 / 12) ((y * 12).toNat), hn]

theorem Part001.iterBal_closed_pos (p r P : ℚ) (n : ℕ) (hr : 0 < r) (hp : 0 ≤ p)
    (hn : 0 < n)
    (hP : P = p * r * (1 + r) ^ n / ((1 + r) ^ n - 1)) :
    ∀ k, k ≤ n →
      Part001.iterBal r P p k = p * ((1 + r) ^ n - (1 + r) ^ k) / ((1 + r) ^ n - 1) := by
  have h1r : (1 : ℚ) < 1 + r := by linarith
  have hD : (0 : ℚ) < (1 + r) ^ n - 1 := by
    have := one_lt_pow₀ h1r hn.ne'
    linarith
  have hDne : (1 + r) ^ n - 1 ≠ 0 := ne_of_gt hD
  intro k
  induction k with
  | zero =>
    intro _
    show p = p * ((1 + r) ^ n - (1 + r) ^ 0) / ((1 + r) ^ n - 1)
    rw [pow_zero, mul_div_assoc, div_self hDne, mul_one]
  | succ k ih =>
    intro hk
    have hk' : k ≤ n := Nat.le_of_succ_le hk
    have hbal := ih hk'
    have hpow : (1 + r) ^ (k + 1) ≤ (1 + r) ^ n := pow_le_pow_right₀ (le_of_lt h1r) hk
    have hnext : Part001.iterBal r P p k - (P - Part001.iterBal r P p k * r)
        = p * ((1 + r) ^ n - (1 + r) ^ (k + 1)) / ((1 + r) ^ n - 1) := by
      rw [hbal, hP]
      field_simp
      ring
    have hnonneg : 0 ≤ p * ((1 + r) ^ n - (1 + r) ^ (k + 1)) / ((1 + r) ^ n - 1) :=
      div_nonneg (mul_nonneg hp (by linarith)) (le_of_lt hD)
    show Part001.step r P (Part001.iterBal r P p k) = _
    simp only [Part001.step]
    rw [hnext, if_neg (not_lt.mpr hnonneg)]

theorem Part001.iterBal_closed_zero (p P : ℚ) (n : ℕ) (hp : 0 ≤ p) (hn : 0 < n)
    (hP : P = p / (n : ℚ)) :
    ∀ k, k ≤ n → Part001.iterBal 0 P p k = p - (k : ℚ) * (p / (n : ℚ)) := by
  have hnn : (0 : ℚ) < (n : ℚ) := by exact_mod_cast hn
  intro k
  induction k with
  | zero =>
    intro _
    show p = p - (0 : ℚ) * (p / (n : ℚ))
    ring
  | succ k ih =>
    intro hk
    have hk' : k ≤ n := Nat.le_of_succ_le hk
    have hbal := ih hk'
    have hnext : Part001.iterBal 0 P p k - (P - Part001.iterBal 0 P p k * 0)
        = p - ((k : ℚ) + 1) * (p / (n : ℚ)) := by
      rw [hbal, hP]
      ring
    have hle : ((k : ℚ) + 1) ≤ (n : ℚ) := by exact_mod_cast hk
    have hnonneg : 0 ≤ p - ((k : ℚ) + 1) * (p / (n : ℚ)) := by
      have h1 : ((k : ℚ) + 1) * (p / (n : ℚ)) ≤ (n : ℚ) * (p / (n : ℚ)) :=
        mul_le_mul_of_nonneg_right hle (div_nonneg hp (le_of_lt hnn))
      have h2 : (n : ℚ) * (p / (n : ℚ)) = p := by field_simp
      linarith
    show Part001.step 0 P (Part001.iterBal 0 P p k) = _
    simp only [Part001.step]
    rw [hnext, if_neg (not_lt.mpr hnonneg)]
    push_cast
    ring

theorem Part001.prevBalance_eq_closed (p r : ℚ) (y : ℤ) (hp : 0 ≤ p) (hr : 0 ≤ r)
    (hy : 0 < y) :
    ∀ k, k ≤ (y * 12).toNat →
      Part001.prevBalance p r y k =
        (if r = 0 then p - (k : ℚ) * (p / ((y * 12).toNat : ℚ))
         else p * ((1 + r / 100 / 12) ^ ((y * 12).toNat) - (1 + r / 100 / 12) ^ k) /
           ((1 + r / 100 / 12) ^ ((y * 12).toNat) - 1)) := by
  have hn : 0 < (y * 12).toNat := by omega
  have hcast : (((y * 12).toNat : ℤ) : ℚ) = ((y * 12 : ℤ) : ℚ) := by
    rw [Int.toNat_of_nonneg (by omega : (0:ℤ) ≤ y * 12)]
  intro k hk
  rcases eq_or_lt_of_le hr with hr0 | hrpos
  · have hr0' : r = 0 := hr0.symm
    subst hr0'
    rw [if_pos rfl]
    have hP : Part001.calculateMonthlyPayment p 0 y = p / (((y * 12).toNat : ℕ) : ℚ) := by
      rw [Part001.payment_zero_rate]
      rw [show ((((y * 12).toNat : ℕ)) : ℚ) = (((y * 12).toNat : ℤ) : ℚ) by push_cast; ring]
      rw [hcast]
    have hz := Part001.iterBal_closed_zero p
      (Part001.calculateMonthlyPayment p 0 y) ((y * 12).toNat) hp hn hP k hk
    simp only [Part001.prevBalance]
    norm_num
    exact hz
  · rw [if_neg (ne_of_gt hrpos)]
    have hr12 : 0 < r / 100 / 12 := by positivity
    have hP := Part001.payment_pos_rate p r y (ne_of_gt hrpos) hy
    exact Part001.iterBal_closed_pos p (r / 100 / 12)
      (Part001.calculateMonthlyPayment p r y) ((y * 12).toNat) hr12 hp hn hP k hk

theorem Part001.prevBalance_terminal (p r : ℚ) (y : ℤ) (hp : 0 ≤ p) (hr : 0 ≤ r)
    (hy : 0 < y) :
    Part001.prevBalance p r y ((y * 12).toNat) = 0 := by
  have hn : 0 < (y * 12).toNat := by omega
  rw [Part001.prevBalance_eq_closed p r y hp hr hy ((y * 12).toNat) le_rfl]
  rcases eq_or_ne r 0 with hr0 | hr0
  · rw [if_pos hr0]
    have : (((y * 12).toNat : ℕ) : ℚ) ≠ 0 := by
      exact_mod_cast hn.ne'
    field_simp
  · rw [if_neg hr0]
    simp

theorem Part001.prevBalance_antitone (p r : ℚ) (y : ℤ) (hp : 0 ≤ p) (hr : 0 ≤ r)
    (hy : 0 < y) :
    ∀ k, k + 1 ≤ (y * 12).toNat →
      Part001.prevBalance p r y (k + 1) ≤ Part001.prevBalance p r y k := by
  intro k hk
  have hk' : k ≤ (y * 12).toNat := Nat.le_of_succ_le hk
  rw [Part001.prevBalance_eq_closed p r y hp hr hy (k + 1) hk,
    Part001.prevBalance_eq_closed p r y hp hr hy k hk']
  have hn : 0 < (y * 12).toNat := by omega
  rcases eq_or_ne r 0 with hr0 | hr0
  · rw [if_pos hr0, if_pos hr0]
    have hnn : (0 : ℚ) < (((y * 12).toNat : ℕ) : ℚ) := by exact_mod_cast hn
    have : 0 ≤ p / (((y * 12).toNat : ℕ) : ℚ) := div_nonneg hp (le_of_lt hnn)
    push_cast
    nlinarith
  · rw [if_neg hr0, if_neg hr0]
    have hrpos : 0 < r := lt_of_le_of_ne hr (Ne.symm hr0)
    have h1r : (1 : ℚ) < 1 + r / 100 / 12 := by
      have : 0 < r / 100 / 12 := by positivity
      linarith
    have hD : (0 : ℚ) < (1 + r / 100 / 12) ^ ((y * 12).toNat) - 1 := by
      have := one_lt_pow₀ h1r hn.ne'
      linarith
    have hpow : (1 + r / 100 / 12) ^ k ≤ (1 + r / 100 / 12) ^ (k + 1) :=
      pow_le_pow_right₀ (le_of_lt h1r) (Nat.le_succ k)
    have hnum : p * ((1 + r / 100 / 12) ^ ((y * 12).toNat) - (1 + r / 100 / 12) ^ (k + 1))
        ≤ p * ((1 + r / 100 / 12) ^ ((y * 12).toNat) - (1 + r / 100 / 12) ^ k) :=
      mul_le_mul_of_nonneg_left (by linarith) hp
    exact (div_le_div_iff_of_pos_right hD).mpr hnum

theorem Query.roundHalfEven_nonpos (q : ℚ) (hq : q ≤ 0) : Query.roundHalfEven q ≤ 0 := by
  have hfloor : ⌊q⌋ ≤ 0 := by
    calc ⌊q⌋ ≤ ⌊(0 : ℚ)⌋ := Int.floor_le_floor hq
    _ = 0 := Int.floor_zero
  unfold Query.roundHalfEven
  split
  · exact hfloor
  · rename_i h1
    have hfr : (1 : ℚ) / 2 ≤ q - ⌊q⌋ := le_of_not_lt h1
    have : (⌊q⌋ : ℚ) < 0 := by linarith
    have hneg : ⌊q⌋ < 0 := by exact_mod_cast this
    split
    · omega
    · split <;> omega

theorem Query.round2_nonpos (q : ℚ) (hq : q ≤ 0) : Query.round2 q ≤ 0 := by
  have h1 : q * 100 ≤ 0 := by nlinarith
  have h2 : Query.roundHalfEven (q * 100) ≤ 0 := Query.roundHalfEven_nonpos _ h1
  have h3 : ((Query.roundHalfEven (q * 100) : ℤ) : ℚ) ≤ 0 := by exact_mod_cast h2
  unfold Query.round2
  have : ((Query.roundHalfEven (q * 100) : ℤ) : ℚ) / 100 ≤ 0 / 100 := by
    apply div_le_div_of_nonneg_right ?_ (by norm_num)
    · exact h3
  simpa using this

theorem MortgageService.amortLoop_stripDate (r P : ℚ) (d1 d2 : ℕ) :
    ∀ (k i : ℕ) (b : ℚ),
      (MortgageService.amortLoop r P d1 k i b).map MortgageService.stripDate
        = (MortgageService.amortLoop r P d2 k i b).map MortgageService.stripDate := by
  intro k
  induction k with
  | zero => intro i b; rfl
  | succ k ih =>
    intro i b
    simp only [MortgageService.amortLoop, List.map_cons]
    exact congrArg₂ List.cons rfl (ih (i + 1) _)

theorem annuityFactor_mono (n : ℕ) (hn : n ≠ 0) {a b : ℚ} (ha : 0 < a) (hab : a ≤ b) :
    a * (1 + a) ^ n / ((1 + a) ^ n - 1) ≤ b * (1 + b) ^ n / ((1 + b) ^ n - 1) := by
  have hb : 0 < b := lt_of_lt_of_le ha hab
  have h1a : (1 : ℚ) < 1 + a := by linarith
  have h1b : (1 : ℚ) < 1 + b := by linarith
  have hA : (0 : ℚ) < (1 + a) ^ n - 1 := by have := one_lt_pow₀ h1a hn; linarith
  have hB : (0 : ℚ) < (1 + b) ^ n - 1 := by have := one_lt_pow₀ h1b hn; linarith
  rw [div_le_div_iff₀ hA hB]
  have ga : (1 + a) ^ n - 1 = (∑ i in Finset.range n, (1 + a) ^ i) * a := by
    rw [← geom_sum_mul (1 + a) n]
    congr 1
    ring
  have gb : (1 + b) ^ n - 1 = (∑ i in Finset.range n, (1 + b) ^ i) * b := by
    rw [← geom_sum_mul (1 + b) n]
    congr 1
    ring
  rw [ga, gb]
  have key : (1 + a) ^ n * ∑ i in Finset.range n, (1 + b) ^ i
      ≤ (1 + b) ^ n * ∑ i in Finset.range n, (1 + a) ^ i := by
    rw [Finset.mul_sum, Finset.mul_sum]
    apply Finset.sum_le_sum
    intro i hi
    have hin : i ≤ n := le_of_lt (Finset.mem_range.mp hi)
    obtain ⟨m, rfl⟩ : ∃ m, n = m + i := ⟨n - i, (Nat.sub_add_cancel hin).symm⟩
    rw [pow_add, pow_add]
    have hm : (1 + a) ^ m ≤ (1 + b) ^ m :=
      pow_le_pow_left₀ (by linarith) (by linarith) m
    have hpos : (0 : ℚ) ≤ (1 + a) ^ i * (1 + b) ^ i := by positivity
    calc (1 + a) ^ m * (1 + a) ^ i * (1 + b) ^ i
        = (1 + a) ^ m * ((1 + a) ^ i * (1 + b) ^ i) := by ring
      _ ≤ (1 + b) ^ m * ((1 + a) ^ i * (1 + b) ^ i) :=
        mul_le_mul_of_nonneg_right hm hpos
      _ = (1 + b) ^ m * (1 + b) ^ i * (1 + a) ^ i := by ring
  have hab0 : (0 : ℚ) ≤ a * b := le_of_lt (mul_pos ha hb)
  have key2 := mul_le_mul_of_nonneg_left key hab0
  calc a * (1 + a) ^ n * ((∑ i in Finset.range n, (1 + b) ^ i) * b)
      = a * b * ((1 + a) ^ n * ∑ i in Finset.range n, (1 + b) ^ i) := by ring
    _ ≤ a * b * ((1 + b) ^ n * ∑ i in Finset.range n, (1 + a) ^ i) := key2
    _ = b * (1 + b) ^ n * ((∑ i in Finset.range n, (1 + a) ^ i) * a) := by ring

theorem Query.annuityPayment_eq_nat (amount rate : ℚ) (y : ℤ) (hy : 0 < y) :
    Query.annuityPayment amount rate y =
      amount * ((rate / 100 / 12) * (1 + rate / 100 / 12) ^ ((y * 12).toNat)) /
        ((1 + rate / 100 / 12) ^ ((y * 12).toNat) - 1) := by
  have hn : ((y * 12).toNat : ℤ) = y * 12 := Int.toNat_of_nonneg (by omega)
  simp only [Query.annuityPayment]
  rw [← zpow_natCast ((1 : ℚ) + rate / 100 / 12) ((y * 12).toNat), hn]

/-! ## Claim C1 — input validation of the payment operation -/

/-- Claim C1, counterexample (claim: for `termYears ≤ 0`, `principal < 0` or
`annualRatePercent < 0` the operation "fails with an InvalidArgument error
... before any computation, and never silently returns a numeric value").
The source `calculateMonthlyPayment` cannot fail — its result type is a plain
number — and at the invalid input `principal = -1000, rate = 0, termYears = 30`
it silently returns the number `-1000/360 = -25/9`, whereas the behaviour the
spec requires (`monthlyPaymentSpec`) is the `InvalidArgument` error. -/
theorem C1_counterexample :
    Part001.calculateMonthlyPayment (-1000) 0 30 = -25/9 ∧
    monthlyPaymentSpec (-1000) 0 30 = Except.error EngineError.invalidArgument ∧
    (-25/9 : ℚ) ≠ 0 := by
  refine ⟨by norm_num [Part001.calculateMonthlyPayment], ?_, by norm_num⟩
  norm_num [monthlyPaymentSpec]

/-- Claim C1 (corrected): `calculateMonthlyPayment` performs no input
validation and never produces an error value: on every invalid input it
silently returns a plain number.  In particular, for any `principal < 0`,
rate `0` and `termYears > 0` it returns the negative number
`principal / (termYears * 12)` — while the spec-required behaviour
(`monthlyPaymentSpec`) is the `InvalidArgument` error. -/
theorem C1_amended (p : ℚ) (y : ℤ) (hp : p < 0) (hy : 0 < y) :
    Part001.calculateMonthlyPayment p 0 y = p / ((y * 12 : ℤ) : ℚ) ∧
    Part001.calculateMonthlyPayment p 0 y < 0 ∧
    monthlyPaymentSpec p 0 y = Except.error EngineError.invalidArgument := by
  have h1 : Part001.calculateMonthlyPayment p 0 y = p / ((y * 12 : ℤ) : ℚ) :=
    Part001.payment_zero_rate p y
  refine ⟨h1, ?_, ?_⟩
  · rw [h1]
    apply div_neg_of_neg_of_pos hp
    have : (0 : ℤ) < y * 12 := by omega
    exact_mod_cast this
  · unfold monthlyPaymentSpec
    rw [if_pos (Or.inr (Or.inl hp))]

/-- Claim C1, witness instantiating the amended theorem at
`principal = -1000, rate = 0, termYears = 30`. -/
theorem C1_witness :
    Part001.calculateMonthlyPayment (-1000) 0 30 = (-1000 : ℚ) / (((30 : ℤ) * 12 : ℤ) : ℚ) ∧
    Part001.calculateMonthlyPayment (-1000) 0 30 < 0 ∧
    monthlyPaymentSpec (-1000) 0 30 = Except.error EngineError.invalidArgument :=
  C1_amended (-1000) 30 (by norm_num) (by norm_num)

/-! ## Claim C2 — the zero-rate special case -/

/-- Claim C2, counterexample (claim: at annual rate exactly `0`, the payment
is exactly `p / (y*12)` "for every place the payment formula is evaluated,
including the payments computed inside the refinance analysis").
`Query.AnalyzeRefinance` (Query.cs lines 330–337) evaluates the annuity
formula with no zero-rate branch: with `newInterestRate = 0` its
`newPayment` is `0/0` (`NaN` in the C# source, `0` under Lean's total
division) — in either semantics not the claimed
`currentLoanAmount / (newTermYears * 12) = 1200 / 12 = 100`. -/
theorem C2_counterexample :
    (Query.AnalyzeRefinance
        { currentLoanAmount := 1200, currentInterestRate := 0, remainingYears := 1,
          newInterestRate := 0, newLoanTermYears := 1, closingCosts := 0 }).newPayment
      ≠ 1200 / ((1 : ℚ) * 12) := by
  norm_num [Query.AnalyzeRefinance, Query.annuityPayment, Query.round2, Query.roundHalfEven]

/-- Claim C2 (corrected): the two `calculateMonthlyPayment` implementations
(part_001 and the part_003 `mortgageService` copy) special-case a zero rate
and return exactly `principal / (termYears * 12)` for every `principal ≥ 0`
and `termYears > 0` (the part_003 copy skips its cent rounding in this
branch, so the value is exact); the inlined annuity formula inside
`Query.AnalyzeRefinance` has no such special case and does not satisfy this
identity (see the counterexample). -/
theorem C2_amended (p : ℚ) (y : ℤ) (hp : 0 ≤ p) (hy : 0 < y) :
    Part001.calculateMonthlyPayment p 0 y = p / ((y * 12 : ℤ) : ℚ) ∧
    MortgageService.calculateMonthlyPayment p 0 y = p / ((y * 12 : ℤ) : ℚ) := by
  constructor
  · exact Part001.payment_zero_rate p y
  · simp [MortgageService.calculateMonthlyPayment]

/-- Claim C2, witness instantiating the amended theorem at the spec's own
scenario `generateSchedule(300000, 0, 15)`: the exact flat payment is
`300000 / 180`. -/
theorem C2_witness :
    Part001.calculateMonthlyPayment 300000 0 15 = (300000 : ℚ) / (((15 : ℤ) * 12 : ℤ) : ℚ) ∧
    MortgageService.calculateMonthlyPayment 300000 0 15 = (300000 : ℚ) / (((15 : ℤ) * 12 : ℤ) : ℚ) :=
  C2_amended 300000 15 (by norm_num) (by norm_num)

/-! ## Claim C4 — determinism / bit-identical outputs -/

/-- Claim C4, counterexample (claim: identical inputs always produce
bit-identical output sequences, with no dependence on wall-clock time).
`mortgageService.generateAmortizationSchedule` (part_003) reads `new Date()`
and stamps it into every entry's `paymentDate`: the same numeric inputs
`(100, 1200, 1)` called when the clock shows month `0` and when it shows
month `1` produce different output sequences. -/
theorem C4_counterexample :
    MortgageService.generateAmortizationSchedule 0 100 1200 1
      ≠ MortgageService.generateAmortizationSchedule 1 100 1200 1 := by
  intro h
  have h2 := congrArg
    (fun l => l.head?.map MortgageService.AmortizationPayment.paymentDate) h
  norm_num [MortgageService.generateAmortizationSchedule,
    MortgageService.amortLoop] at h2

/-- Claim C4 (corrected): every part_001 engine function is a pure function
of its numeric inputs (in this model determinism is definitional), and the
clock dependence of `mortgageService.generateAmortizationSchedule` is
confined to `paymentDate`: calls at any two clock values `d1`, `d2` with
identical numeric inputs agree on every other field of every entry. -/
theorem C4_amended (d1 d2 : ℕ) (p r : ℚ) (y : ℤ) :
    (MortgageService.generateAmortizationSchedule d1 p r y).map MortgageService.stripDate
      = (MortgageService.generateAmortizationSchedule d2 p r y).map
          MortgageService.stripDate :=
  MortgageService.amortLoop_stripDate _ _ d1 d2 _ 1 p

/-! ## Claim C9 — rent-vs-buy yearly accumulation -/

/-- Claim C9, counterexample (claim: each year adds the insurance input once,
"12 * annualInsurance/12 = annualInsurance added once per year").  The source
(part_001 line 104) computes `annualInsurance = homeInsurance * 12`.  With
`homePrice = 0`, `downPayment = 0`, rate `0`, term `1` year, rent `0`, all
rates `0`, `homeInsurance = 100` and a 1-year horizon, every other term is
`0`, so the claim predicts a cumulative buying cost of `100`; the code
returns `1200`. -/
theorem C9_counterexample :
    (Part001.calculateRentVsBuy 0 0 0 1 0 0 100 0 0 0 1).buyingCost = 1200 ∧
    (0 : ℚ) + (12 * Part001.calculateMonthlyPayment (0 - 0) 0 1
        + 0 * ((0 : ℚ) / 100) + 100 + 0 * ((0 : ℚ) / 100))
      - (0 * (1 + (0 : ℚ) / 100) ^ (1 : ℕ) - 0) = 100 ∧
    (1200 : ℚ) ≠ 100 := by
  refine ⟨?_, by norm_num [Part001.calculateMonthlyPayment], by norm_num⟩
  norm_num [Part001.calculateRentVsBuy, Part001.rentVsBuyState,
    Part001.rentVsBuyStep, Part001.calculateMonthlyPayment]

/-- Claim C9 (corrected): per simulated year the cumulative buying cost
increases by `12 * monthlyPayment + homePrice * propertyTaxRate% +
12 * homeInsurance + homePrice * maintenanceRate%` — the insurance input is
multiplied by 12 (treated as a monthly amount), not added once — and then
decreases by that year's appreciation
`homePrice * (1 + appreciationRate%)^year − homePrice`.  The first conjunct
ties `calculateRentVsBuy`'s reported `buyingCost` to the simulated state. -/
theorem C9_amended (homePrice downPayment interestRate : ℚ) (loanTermYears : ℤ)
    (monthlyRent propertyTaxRate homeInsurance maintenanceRate rentIncreaseRate
      homeAppreciationRate : ℚ) (yearsToAnalyze k : ℕ) :
    (Part001.calculateRentVsBuy homePrice downPayment interestRate loanTermYears
        monthlyRent propertyTaxRate homeInsurance maintenanceRate rentIncreaseRate
        homeAppreciationRate yearsToAnalyze).buyingCost
      = (Part001.rentVsBuyState homePrice downPayment interestRate loanTermYears
          monthlyRent propertyTaxRate homeInsurance maintenanceRate rentIncreaseRate
          homeAppreciationRate yearsToAnalyze).1 ∧
    (Part001.rentVsBuyState homePrice downPayment interestRate loanTermYears
        monthlyRent propertyTaxRate homeInsurance maintenanceRate rentIncreaseRate
        homeAppreciationRate (k + 1)).1
      = (Part001.rentVsBuyState homePrice downPayment interestRate loanTermYears
          monthlyRent propertyTaxRate homeInsurance maintenanceRate rentIncreaseRate
          homeAppreciationRate k).1
        + 12 * Part001.calculateMonthlyPayment (homePrice - downPayment) interestRate
            loanTermYears
        + homePrice * (propertyTaxRate / 100)
        + 12 * homeInsurance
        + homePrice * (maintenanceRate / 100)
        - (homePrice * (1 + homeAppreciationRate / 100) ^ (k + 1) - homePrice) := by
  constructor
  · rfl
  · simp only [Part001.rentVsBuyState, Part001.rentVsBuyStep]
    ring

theorem Query.roundHalfEven_nonneg (q : ℚ) (hq : 0 ≤ q) : 0 ≤ Query.roundHalfEven q := by
  have h1 : (0 : ℤ) ≤ ⌊q⌋ := Int.le_floor.mpr (by exact_mod_cast hq)
  unfold Query.roundHalfEven
  split
  · exact h1
  · split
    · omega
    · split
      · exact h1
      · omega

theorem Query.round2_nonneg (q : ℚ) (hq : 0 ≤ q) : 0 ≤ Query.round2 q := by
  have h1 : (0 : ℚ) ≤ q * 100 := by nlinarith
  have h2 : (0 : ℤ) ≤ Query.roundHalfEven (q * 100) := Query.roundHalfEven_nonneg _ h1
  have h3 : (0 : ℚ) ≤ ((Query.roundHalfEven (q * 100) : ℤ) : ℚ) := by exact_mod_cast h2
  unfold Query.round2
  positivity

/-! ## Claim C5 — break-even uses the ceiling -/

/-- Claim C5, counterexample (claim: the returned break-even period equals
`ceil(closingCosts / monthlySavings)` whenever `monthlySavings > 0`, "in
every implementation of the refinance analysis").  part_001's
`calculateRefinanceBreakEven` applies no ceiling: at
`(1200, 1200%, 0%, 1 year, 100)` the savings are `300380/273 > 0` and the
code returns the raw quotient `1365/15019 ≈ 0.09`, while the claimed value is
`⌈100 / (300380/273)⌉ = 1`. -/
theorem C5_counterexample :
    (Part001.calculateRefinanceBreakEven 1200 1200 0 1 100).monthlySavings = 300380/273 ∧
    (Part001.calculateRefinanceBreakEven 1200 1200 0 1 100).breakEvenMonths = 1365/15019 ∧
    ⌈(100 : ℚ) / (300380/273 : ℚ)⌉ = 1 ∧
    (1365/15019 : ℚ) ≠ ((1 : ℤ) : ℚ) := by
  refine ⟨?_, ?_, ?_, by norm_num⟩
  · norm_num [Part001.calculateRefinanceBreakEven, Part001.calculateMonthlyPayment]
  · norm_num [Part001.calculateRefinanceBreakEven, Part001.calculateMonthlyPayment]
  · rw [Int.ceil_eq_iff]; norm_num

/-- Claim C5 (corrected): the two refinance implementations disagree.
`Query.AnalyzeRefinance` (Query.cs) returns
`⌈closingCosts / monthlySavings⌉` when `monthlySavings > 0`, else `0`;
part_001's `calculateRefinanceBreakEven` returns the *unrounded quotient*
`closingCosts / monthlySavings` when `monthlySavings > 0`, else `0` — no
ceiling is applied there. -/
theorem C5_amended (input : Query.RefinanceInput) (bal cr nr : ℚ) (y : ℤ) (cc : ℚ) :
    (Query.AnalyzeRefinance input).breakEvenMonths
        = (if 0 < Query.annuityPayment input.currentLoanAmount input.currentInterestRate
                input.remainingYears
              - Query.annuityPayment input.currentLoanAmount input.newInterestRate
                input.newLoanTermYears
           then ⌈input.closingCosts /
              (Query.annuityPayment input.currentLoanAmount input.currentInterestRate
                  input.remainingYears
                - Query.annuityPayment input.currentLoanAmount input.newInterestRate
                  input.newLoanTermYears)⌉
           else 0) ∧
    (Part001.calculateRefinanceBreakEven bal cr nr y cc).breakEvenMonths
        = (if 0 < Part001.calculateMonthlyPayment bal cr y
              - Part001.calculateMonthlyPayment bal nr y
           then cc / (Part001.calculateMonthlyPayment bal cr y
              - Part001.calculateMonthlyPayment bal nr y)
           else 0) :=
  ⟨rfl, rfl⟩

/-! ## Claim C6 — refinance break-even sanity -/

/-- Claim C6, counterexample (claim: `newRatePercent ≥ currentRatePercent`
and `newTermYears ≥ currentRemainingYears` imply `monthlySavings ≤ 0` and
`breakEvenPeriods = 0`).  With equal rates (`1200% ≥ 1200%`) but a longer new
term (`2 ≥ 1` years), the new payment is *smaller* (the 24-month annuity on
the same balance), so the code reports positive savings (`0.29/month`) and a
positive break-even, contradicting both claimed conclusions. -/
theorem C6_counterexample :
    (1200 : ℚ) ≤ 1200 ∧ (1 : ℤ) ≤ 2 ∧
    0 < (Query.AnalyzeRefinance
        { currentLoanAmount := 1200, currentInterestRate := 1200, remainingYears := 1,
          newInterestRate := 1200, newLoanTermYears := 2, closingCosts := 100 }).monthlySavings ∧
    (Query.AnalyzeRefinance
        { currentLoanAmount := 1200, currentInterestRate := 1200, remainingYears := 1,
          newInterestRate := 1200, newLoanTermYears := 2, closingCosts := 100 }).breakEvenMonths ≠ 0 := by
  have h1 : Query.annuityPayment 1200 1200 1 = 327680/273 := by
    norm_num [Query.annuityPayment]
  have h2 : Query.annuityPayment 1200 1200 2 = 1342177280/1118481 := by
    norm_num [Query.annuityPayment]
  have hsav : Query.annuityPayment 1200 1200 1 - Query.annuityPayment 1200 1200 2
      = 327680/1118481 := by
    rw [h1, h2]
    norm_num
  refine ⟨by norm_num, by norm_num, ?_, ?_⟩
  · show 0 < Query.round2
      (Query.annuityPayment 1200 1200 1 - Query.annuityPayment 1200 1200 2)
    rw [hsav]
    norm_num [Query.round2, Query.roundHalfEven]
  · show (if 0 < Query.annuityPayment 1200 1200 1 - Query.annuityPayment 1200 1200 2
        then ⌈(100 : ℚ) / (Query.annuityPayment 1200 1200 1
          - Query.annuityPayment 1200 1200 2)⌉
        else 0) ≠ 0
    rw [hsav, if_pos (by norm_num)]
    have hpos : (0 : ℤ) < ⌈(100 : ℚ) / (327680/1118481 : ℚ)⌉ :=
      Int.ceil_pos.mpr (by norm_num)
    omega

/-- Claim C6 (corrected): the conclusion holds once the terms are equal
(`newTermYears = currentRemainingYears`), which is the most the
counterexample allows: for every balance `≥ 0`, positive current rate, and
`newRatePercent ≥ currentRatePercent` at the same (positive) term, the
refinance analysis reports `monthlySavings ≤ 0` and `breakEvenMonths = 0`.
(The positive-rate hypothesis keeps the C# annuity expression well-defined:
at rate `0` its denominator is `0`.) -/
theorem C6_amended (bal r1 r2 : ℚ) (y : ℤ) (cc : ℚ)
    (hbal : 0 ≤ bal) (hr1 : 0 < r1) (hr12 : r1 ≤ r2) (hy : 0 < y) :
    (Query.AnalyzeRefinance
        { currentLoanAmount := bal, currentInterestRate := r1, remainingYears := y,
          newInterestRate := r2, newLoanTermYears := y, closingCosts := cc }).monthlySavings ≤ 0 ∧
    (Query.AnalyzeRefinance
        { currentLoanAmount := bal, currentInterestRate := r1, remainingYears := y,
          newInterestRate := r2, newLoanTermYears := y, closingCosts := cc }).breakEvenMonths = 0 := by
  have hn : ((y * 12).toNat) ≠ 0 := by omega
  have ha : 0 < r1 / 100 / 12 := by positivity
  have hab : r1 / 100 / 12 ≤ r2 / 100 / 12 := by
    apply div_le_div_of_nonneg_right ?_ (by norm_num)
    apply div_le_div_of_nonneg_right hr12 (by norm_num)
  have hmono := annuityFactor_mono ((y * 12).toNat) hn ha hab
  have hpay : Query.annuityPayment bal r1 y ≤ Query.annuityPayment bal r2 y := by
    rw [Query.annuityPayment_eq_nat bal r1 y hy, Query.annuityPayment_eq_nat bal r2 y hy]
    simp only [mul_div_assoc] at hmono ⊢
    exact mul_le_mul_of_nonneg_left hmono hbal
  have hsavle : Query.annuityPayment bal r1 y - Query.annuityPayment bal r2 y ≤ 0 := by
    linarith
  constructor
  · show Query.round2 (Query.annuityPayment bal r1 y - Query.annuityPayment bal r2 y) ≤ 0
    exact Query.round2_nonpos _ hsavle
  · have hbe : (Query.AnalyzeRefinance
        { currentLoanAmount := bal, currentInterestRate := r1, remainingYears := y,
          newInterestRate := r2, newLoanTermYears := y, closingCosts := cc }).breakEvenMonths
        = (if 0 < Query.annuityPayment bal r1 y - Query.annuityPayment bal r2 y
           then ⌈cc / (Query.annuityPayment bal r1 y - Query.annuityPayment bal r2 y)⌉
           else 0) := rfl
    rw [hbe, if_neg (not_lt.mpr hsavle)]

/-- Claim C6, witness instantiating the amended theorem at
`(balance 1200, current 1200% for 1 year, new 2400% for 1 year, costs 50)`. -/
theorem C6_witness :
    (Query.AnalyzeRefinance
        { currentLoanAmount := 1200, currentInterestRate := 1200, remainingYears := 1,
          newInterestRate := 2400, newLoanTermYears := 1, closingCosts := 50 }).monthlySavings ≤ 0 ∧
    (Query.AnalyzeRefinance
        { currentLoanAmount := 1200, currentInterestRate := 1200, remainingYears := 1,
          newInterestRate := 2400, newLoanTermYears := 1, closingCosts := 50 }).breakEvenMonths = 0 :=
  C6_amended 1200 1200 2400 1 50 (by norm_num) (by norm_num) (by norm_num) (by norm_num)

/-! ## Claim C7 — affordability clamping order -/

/-- Claim C7, counterexample (claim: `availableForMortgage` is "clamped to
`≥ 0` before any use", so `debtToIncomeRatioPercent` is computed from the
clamped value).  At `annualIncome = 12000, monthlyDebts = 1000`:
`availableForMortgage = min(280, 360 − 1000) = −640`; the code's DTI output
is `(1000 + (−640))/1000 · 100 = 36`, whereas computing from the clamped
value `0` (as the claim requires) would give `(1000 + 0)/1000 · 100 = 100`.
Only the returned `availableForMortgage` DTO field is clamped (to `0`). -/
theorem C7_counterexample :
    (Query.CalculateAffordability
        { annualIncome := 12000, monthlyDebts := 1000, downPayment := 0,
          interestRate := 6, loanTermYears := 30 }).debtToIncomeRatioPercent = 36 ∧
    (Query.CalculateAffordability
        { annualIncome := 12000, monthlyDebts := 1000, downPayment := 0,
          interestRate := 6, loanTermYears := 30 }).recommendedPayment = 0 ∧
    ((1000 : ℚ) + 0) / (12000 / 12) * 100 = 100 ∧
    (36 : ℚ) ≠ 100 := by
  refine ⟨?_, ?_, by norm_num, by norm_num⟩
  · norm_num [Query.CalculateAffordability, Query.round2, Query.roundHalfEven, min_def]
  · norm_num [Query.CalculateAffordability, Query.round2, Query.roundHalfEven,
      min_def, max_def]

/-- Claim C7 (corrected): `availableForMortgage = min(monthlyIncome · 0.28,
monthlyIncome · 0.36 − monthlyDebts)` is used *unclamped* downstream:
`debtToIncomeRatioPercent` is computed from the unclamped value; the
`Math.Max(0, ·)` clamp is applied only to the returned `availableForMortgage`
output field (the DTO's third position), which is therefore `≥ 0`. -/
theorem C7_amended (input : Query.AffordabilityInput)
    (h : input.annualIncome ≠ 0) :
    (Query.CalculateAffordability input).debtToIncomeRatioPercent
        = Query.round2 ((input.monthlyDebts
            + min (input.annualIncome / 12 * (28/100))
                (input.annualIncome / 12 * (36/100) - input.monthlyDebts))
          / (input.annualIncome / 12) * 100) ∧
    (Query.CalculateAffordability input).recommendedPayment
        = Query.round2 (max 0 (min (input.annualIncome / 12 * (28/100))
            (input.annualIncome / 12 * (36/100) - input.monthlyDebts))) ∧
    0 ≤ (Query.CalculateAffordability input).recommendedPayment := by
  refine ⟨rfl, rfl, ?_⟩
  exact Query.round2_nonneg _ (le_max_left 0 _)

/-- Claim C7, witness instantiating the amended theorem at the
counterexample's input. -/
theorem C7_witness :
    (Query.CalculateAffordability
        { annualIncome := 12000, monthlyDebts := 1000, downPayment := 0,
          interestRate := 6, loanTermYears := 30 }).debtToIncomeRatioPercent
        = Query.round2 (((1000 : ℚ)
            + min ((12000 : ℚ) / 12 * (28/100)) ((12000 : ℚ) / 12 * (36/100) - 1000))
          / ((12000 : ℚ) / 12) * 100) ∧
    (Query.CalculateAffordability
        { annualIncome := 12000, monthlyDebts := 1000, downPayment := 0,
          interestRate := 6, loanTermYears := 30 }).recommendedPayment
        = Query.round2 (max 0 (min ((12000 : ℚ) / 12 * (28/100))
            ((12000 : ℚ) / 12 * (36/100) - 1000))) ∧
    0 ≤ (Query.CalculateAffordability
        { annualIncome := 12000, monthlyDebts := 1000, downPayment := 0,
          interestRate := 6, loanTermYears := 30 }).recommendedPayment :=
  C7_amended
    { annualIncome := 12000, monthlyDebts := 1000, downPayment := 0,
      interestRate := 6, loanTermYears := 30 } (by norm_num)

/-! ## Claim C8 — pre-approval eligibility conjunction -/

/-- Claim C8 (confirmed): for every input with positive income (the C#
division `monthlyDebts / (annualIncome/12)` requires `annualIncome ≠ 0`),
`CheckPreApproval` reports `isEligible = true` exactly when all four checks
hold, with inclusive boundaries: `monthlyDebts / (annualIncome/12) ≤ 0.43`,
`creditScore ≥ 620`, `downPayment ≥ 10000`, and
`employmentStatus ≠ "Unemployed"`. -/
theorem C8_eligibility_iff (input : Query.PreApprovalInput)
    (h : 0 < input.annualIncome) :
    (Query.CheckPreApproval input).isEligible = true ↔
      (input.monthlyDebts / (input.annualIncome / 12) ≤ 43/100 ∧
       620 ≤ input.creditScore ∧
       10000 ≤ input.downPayment ∧
       input.employmentStatus ≠ "Unemployed") := by
  simp only [Query.CheckPreApproval, Bool.and_eq_true, decide_eq_true_eq]
  tauto

/-- Claim C8, witness at the exact boundary input: income `120000` (DTI
`4300/10000 = 0.43` exactly), score exactly `620`, down payment exactly
`10000`, employed — eligible. -/
theorem C8_witness :
    (Query.CheckPreApproval
        { annualIncome := 120000, monthlyDebts := 4300, downPayment := 10000,
          creditScore := 620, employmentStatus := "Employed" }).isEligible = true :=
  (C8_eligibility_iff
      { annualIncome := 120000, monthlyDebts := 4300, downPayment := 10000,
        creditScore := 620, employmentStatus := "Employed" }
      (by norm_num)).mpr
    (by refine ⟨by norm_num, by norm_num, by norm_num, ?_⟩; simp)

theorem Part001.schedule_map_triple (p r : ℚ) (y : ℤ) :
    (Part001.generateAmortizationSchedule p r y).map
        (fun e => (e.principal, e.interest, e.balance))
      = (List.range ((y * 12).toNat)).map (fun j =>
          (Part001.calculateMonthlyPayment p r y
              - Part001.prevBalance p r y j * (r / 100 / 12),
            Part001.prevBalance p r y j * (r / 100 / 12),
            Part001.prevBalance p r y (j + 1))) :=
  Part001.amortLoop_map_triple _ _ _ _ _ _ _

theorem Part001.schedule_get_triple (p r : ℚ) (y : ℤ) (i : ℕ)
    (hi : i < (Part001.generateAmortizationSchedule p r y).length) :
    ((Part001.generateAmortizationSchedule p r y).get ⟨i, hi⟩).principal
        = Part001.calculateMonthlyPayment p r y
          - Part001.prevBalance p r y i * (r / 100 / 12) ∧
    ((Part001.generateAmortizationSchedule p r y).get ⟨i, hi⟩).interest
        = Part001.prevBalance p r y i * (r / 100 / 12) ∧
    ((Part001.generateAmortizationSchedule p r y).get ⟨i, hi⟩).balance
        = Part001.prevBalance p r y (i + 1) := by
  have hi' : i < (y * 12).toNat := by
    have := Part001.schedule_length p r y
    omega
  have h0 := congrArg (fun l => l[i]?) (Part001.schedule_map_triple p r y)
  simp only [List.getElem?_map, List.getElem?_range hi',
    List.getElem?_eq_getElem hi, Option.map_some', Option.some.injEq] at h0
  have h1 : ((Part001.generateAmortizationSchedule p r y).get ⟨i, hi⟩).principal
      = (Part001.generateAmortizationSchedule p r y)[i].principal := by
    simp [List.get_eq_getElem]
  have h2 : ((Part001.generateAmortizationSchedule p r y).get ⟨i, hi⟩).interest
      = (Part001.generateAmortizationSchedule p r y)[i].interest := by
    simp [List.get_eq_getElem]
  have h3 : ((Part001.generateAmortizationSchedule p r y).get ⟨i, hi⟩).balance
      = (Part001.generateAmortizationSchedule p r y)[i].balance := by
    simp [List.get_eq_getElem]
  rw [h1, h2, h3]
  exact ⟨congrArg Prod.fst h0, congrArg (fun t => t.2.1) h0,
    congrArg (fun t => t.2.2) h0⟩

/-! ## Claim C3 — terminal balance and monotonicity of the schedule -/

/-- Claim C3, counterexample (claim: for every valid input the last entry's
`remainingBalance` is exactly `0` — the claim's sources include the part_003
`mortgageService.generateAmortizationSchedule`).  That copy rounds the
monthly payment to cents (`100.02` instead of `409600/4095 ≈ 100.0244` at
principal `100`, annual rate `1200%`, term `1` year), so it underpays every
month and the 12th entry's balance is `18.10`, not `0`. -/
theorem C3_counterexample :
    ((MortgageService.generateAmortizationSchedule 0 100 1200 1).map
        (fun e => e.remainingBalance)).getLast? = some (181/10) ∧
    (181/10 : ℚ) ≠ 0 := by
  refine ⟨?_, by norm_num⟩
  norm_num [MortgageService.generateAmortizationSchedule, MortgageService.amortLoop,
    MortgageService.calculateMonthlyPayment, MortgageService.round2,
    MortgageService.jsRound, max_def]

/-- Claim C3 (corrected): the claim holds for the exact part_001
`generateAmortizationSchedule` (negative-balance clamp, no rounding): for
every valid input (`principal ≥ 0`, `rate ≥ 0`, `termYears > 0`) the last
entry's balance is exactly `0` and the emitted balances are monotonically
non-increasing.  The part_003 `mortgageService` copy, which rounds the
payment to cents, violates the terminal-balance property (see the
counterexample). -/
theorem C3_amended (p r : ℚ) (y : ℤ) (hp : 0 ≤ p) (hr : 0 ≤ r) (hy : 0 < y) :
    ((Part001.generateAmortizationSchedule p r y).map (fun e => e.balance)).getLast?
        = some 0 ∧
    List.Chain' (fun a b => b ≤ a)
      ((Part001.generateAmortizationSchedule p r y).map (fun e => e.balance)) := by
  have hmap := Part001.schedule_map_balance p r y
  obtain ⟨m, hm⟩ : ∃ m, (y * 12).toNat = m + 1 := ⟨(y * 12).toNat - 1, by omega⟩
  constructor
  · rw [hmap, hm, List.range_succ, List.map_append, List.map_cons, List.map_nil,
      List.getLast?_concat]
    have hterm := Part001.prevBalance_terminal p r y hp hr hy
    rw [hm] at hterm
    rw [hterm]
  · rw [hmap, List.chain'_map, hm]
    apply (List.chain'_range_succ _ m).mpr
    intro i hi
    have : (i + 1) + 1 ≤ (y * 12).toNat := by omega
    exact Part001.prevBalance_antitone p r y hp hr hy (i + 1) this

/-- Claim C3, witness instantiating the amended theorem at
`(principal 1200, rate 1200%, 1 year)`. -/
theorem C3_witness :
    ((Part001.generateAmortizationSchedule 1200 1200 1).map (fun e => e.balance)).getLast?
        = some 0 ∧
    List.Chain' (fun a b => b ≤ a)
      ((Part001.generateAmortizationSchedule 1200 1200 1).map (fun e => e.balance)) :=
  C3_amended 1200 1200 1 (by norm_num) (by norm_num) (by norm_num)

/-! ## Claim C10 — each installment splits into interest plus principal -/

/-- Claim C10 (confirmed): for every valid loan and every entry of the
part_001 schedule, the entry's principal portion plus its interest portion
equals the fixed monthly payment computed once for the loan, and the interest
portion is the pre-payment remaining balance times the monthly rate
`r/100/12`.  The final conjunct identifies `prevBalance` with the previous
entry's emitted `balance` (for `i > 0`; `prevBalance _ _ _ 0` is the
principal by definition), so "pre-payment remaining balance" means exactly
what the claim says. -/
theorem C10_installment_split (p r : ℚ) (y : ℤ) (hp : 0 ≤ p) (hr : 0 ≤ r) (hy : 0 < y)
    (i : ℕ) (hi : i < (Part001.generateAmortizationSchedule p r y).length) :
    ((Part001.generateAmortizationSchedule p r y).get ⟨i, hi⟩).principal
        + ((Part001.generateAmortizationSchedule p r y).get ⟨i, hi⟩).interest
      = Part001.calculateMonthlyPayment p r y ∧
    ((Part001.generateAmortizationSchedule p r y).get ⟨i, hi⟩).interest
      = Part001.prevBalance p r y i * (r / 100 / 12) ∧
    (∀ j, i = j + 1 →
      ∀ hj : j < (Part001.generateAmortizationSchedule p r y).length,
        ((Part001.generateAmortizationSchedule p r y).get ⟨j, hj⟩).balance
          = Part001.prevBalance p r y i) := by
  obtain ⟨hpr, hint, _⟩ := Part001.schedule_get_triple p r y i hi
  refine ⟨?_, hint, ?_⟩
  · rw [hpr, hint]
    ring
  · intro j hij hj
    obtain ⟨_, _, hbal⟩ := Part001.schedule_get_triple p r y j hj
    rw [hbal, hij]

/-- Claim C10, witness instantiating the theorem at the zero-rate loan
`(1200, 0%, 1 year)` and entry index `5`. -/
theorem C10_witness :
    ((Part001.generateAmortizationSchedule 1200 0 1).get
        ⟨5, by rw [Part001.schedule_length]; norm_num⟩).principal
        + ((Part001.generateAmortizationSchedule 1200 0 1).get
            ⟨5, by rw [Part001.schedule_length]; norm_num⟩).interest
      = Part001.calculateMonthlyPayment 1200 0 1 ∧
    ((Part001.generateAmortizationSchedule 1200 0 1).get
        ⟨5, by rw [Part001.schedule_length]; norm_num⟩).interest
      = Part001.prevBalance 1200 0 1 5 * ((0 : ℚ) / 100 / 12) ∧
    (∀ j, 5 = j + 1 →
      ∀ hj : j < (Part001.generateAmortizationSchedule 1200 0 1).length,
        ((Part001.generateAmortizationSchedule 1200 0 1).get ⟨j, hj⟩).balance
          = Part001.prevBalance 1200 0 1 5) :=
  C10_installment_split 1200 0 1 (by norm_num) (by norm_num) (by norm_num) 5
    (by rw [Part001.schedule_length]; norm_num)
